import Mathlib

/-!
Shallow embedding of the realtime tutoring pipeline of `src/App.tsx`
(Math Mentor Live).  The React component's state hooks and refs become
fields of an explicit `AppState` record, and each event-handler branch
becomes a pure state-transition function translated line by line from
the source.  Times (the output audio clock, segment durations, the
`nextStartTimeRef` cursor) are rationals.
-/

namespace MathMentor

/-- The JavaScript platform primitive `String.prototype.trim()`:
remove leading and trailing whitespace.  (Lean's own `String.trim` is
extensionally the same but is defined through `Substring` auxiliaries
that do not reduce in the kernel, so the embedding uses this list-level
form.) -/
def jsTrim (s : String) : String :=
  { data := ((s.data.dropWhile Char.isWhitespace).reverse.dropWhile
      Char.isWhitespace).reverse }

/-- Connection status enum (`SessionStatus` in `src/types`). -/
inductive SessionStatus where
  | idle
  | connecting
  | connected
  | error
deriving DecidableEq, Repr

/-- Transcript roles: the source stores the literals `'user'` and
`'model'`; the UI renders them as Student and Mentor respectively. -/
inductive Role where
  | user
  | model
deriving DecidableEq, Repr

/-- `TranscriptionEntry` from `src/types`: an immutable `{role, text}` record. -/
structure TranscriptionEntry where
  role : Role
  text : String
deriving DecidableEq, Repr

/-- One scheduled output-audio segment (an `AudioBufferSourceNode` in the
source): its scheduled start time and its buffer duration, in seconds. -/
structure Segment where
  start : ℚ
  dur : ℚ
deriving DecidableEq, Repr

/-- A minimal JSON value type for the grading response body
(`JSON.parse(response.text)` in `handleGradeAssignment`). -/
inductive Json where
  | null
  | bool (b : Bool)
  | num (q : ℚ)
  | str (s : String)
  | arr (elems : List Json)
  | obj (fields : List (String × Json))

/-- The stored grade report (`finalGrade` state): `{grade, feedback}` as
parsed JSON values (the source stores whatever `result.grade` /
`result.feedback` held, defaulting via JavaScript `||`). -/
structure GradeReport where
  grade : Json
  feedback : Json

/-- The component's observable state: React `useState` values and the
mutable refs of `src/App.tsx` lines 44-84.  `stopLog` records every
segment on which `.stop()` was called (the only way the embedding can
observe that playing audio was stopped). -/
structure AppState where
  status : SessionStatus
  transcriptions : List TranscriptionEntry
  error : Option String
  finalGrade : Option GradeReport
  isGrading : Bool
  activeUserText : String
  activeModelText : String
  currentInput : String
  currentOutput : String
  nextStartTime : ℚ
  sources : List Segment
  stopLog : List Segment
  session : Option Nat
  timerActive : Bool
  audioCtxInOpen : Bool
  audioCtxOutOpen : Bool

/-- The component's initial state: status Idle, empty history and
buffers, cursor 0, no session, no timer, no audio contexts. -/
def initState : AppState where
  status := .idle
  transcriptions := []
  error := none
  finalGrade := none
  isGrading := false
  activeUserText := ""
  activeModelText := ""
  currentInput := ""
  currentOutput := ""
  nextStartTime := 0
  sources := []
  stopLog := []
  session := none
  timerActive := false
  audioCtxInOpen := false
  audioCtxOutOpen := false

/-- `cleanup` (`src/App.tsx` lines 93-105): cancel the sampler timer,
close both audio contexts, stop every pending source and clear the set,
drop the session reference, reset status to Idle and clear all four
transcription buffers.  It does not touch `transcriptions`, `error`,
`finalGrade`, `isGrading` or `nextStartTimeRef`. -/
def cleanup (st : AppState) : AppState :=
  { st with
    timerActive := false
    audioCtxInOpen := false
    audioCtxOutOpen := false
    stopLog := st.stopLog ++ st.sources
    sources := []
    session := none
    status := .idle
    activeUserText := ""
    activeModelText := ""
    currentInput := ""
    currentOutput := "" }

/-- The turn-complete branch of `onmessage` (`src/App.tsx` lines
256-274): build `historyToAppend` from the trimmed buffers (Student
first, then Mentor, each only when its trimmed content is non-empty),
append it to `transcriptions` when non-empty, then reset all four
buffers. -/
def turnComplete (st : AppState) : AppState :=
  let historyToAppend : List TranscriptionEntry :=
    (if jsTrim st.currentInput ≠ "" then
      [{ role := .user, text := jsTrim st.currentInput }] else [])
    ++ (if jsTrim st.currentOutput ≠ "" then
      [{ role := .model, text := jsTrim st.currentOutput }] else [])
  { st with
    transcriptions :=
      if 0 < historyToAppend.length then st.transcriptions ++ historyToAppend
      else st.transcriptions
    currentInput := ""
    currentOutput := ""
    activeUserText := ""
    activeModelText := "" }

/-- The interruption branch of `onmessage` (`src/App.tsx` lines
235-241): stop every pending source, clear the set, set the cursor
`nextStartTimeRef.current` to `0` (the code does not read the output
clock here), and append the fixed marker `" [Interrupted]"` to the
Mentor buffer and its mirror. -/
def interrupted (st : AppState) : AppState :=
  { st with
    stopLog := st.stopLog ++ st.sources
    sources := []
    nextStartTime := 0
    currentOutput := st.currentOutput ++ " [Interrupted]"
    activeModelText := st.currentOutput ++ " [Interrupted]" }

/-- The audio-output branch of `onmessage` (`src/App.tsx` lines
218-231), for one inbound audio chunk, given the output clock's current
reading `clockNow` and the decoded buffer's duration `dur`:
`nextStartTime := max nextStartTime clockNow`; the new source starts at
that time; the cursor advances by `dur`; the source joins the pending
set. -/
def enqueueChunk (clockNow dur : ℚ) (st : AppState) : AppState :=
  let start := max st.nextStartTime clockNow
  { st with
    nextStartTime := start + dur
    sources := st.sources ++ [{ start := start, dur := dur }] }

/-- The `ended` event listener registered on each source
(`src/App.tsx` line 227): remove that segment from the pending set. -/
def segmentEnded (seg : Segment) (st : AppState) : AppState :=
  { st with sources := st.sources.erase seg }

/-- A sequence of audio-output events: each element is the pair
(output-clock reading at that event, decoded buffer duration). -/
def enqueueSeq (chunks : List (ℚ × ℚ)) (st : AppState) : AppState :=
  chunks.foldl (fun s c => enqueueChunk c.1 c.2 s) st

/-- An inbound function-call request (`fc` in the `toolCall` branch):
identifier, capability name, numeric arguments. -/
structure FunctionCall where
  id : String
  name : String
  args : List (String × ℚ)
deriving DecidableEq, Repr

/-- A function response as built by the `toolCall` branch: the
originating identifier and name plus the `response.result` payload. -/
structure FunctionResponse where
  id : String
  name : String
  response : String
deriving DecidableEq, Repr

/-- The `toolCall` branch of `onmessage` (`src/App.tsx` lines 194-210):
map each request to its response, `'ok'` for `draw_square` (the draw is
a rendering side effect), `'error: tool not found'` otherwise. -/
def handleToolCall (functionCalls : List FunctionCall) : List FunctionResponse :=
  functionCalls.map fun fc =>
    if fc.name = "draw_square" then
      { id := fc.id, name := fc.name, response := "ok" }
    else
      { id := fc.id, name := fc.name, response := "error: tool not found" }

/-- Lines 212-214: the batch of responses is sent as one outbound
`sendToolResponse` message when non-empty; the value is the list of
outbound messages produced by the event. -/
def toolCallOutbound (functionCalls : List FunctionCall) : List (List FunctionResponse) :=
  let functionResponses := handleToolCall functionCalls
  if 0 < functionResponses.length then [functionResponses] else []

/-- The fixed base persona/ruleset (`BASE_SYSTEM_INSTRUCTION`,
`src/App.tsx` lines 8-18). -/
def BASE_SYSTEM_INSTRUCTION : String :=
  "You are an expert, patient, and friendly math tutor.\nThe user will share their screen (a handwriting canvas) and talk to you while solving math problems.\nYour goal is to guide the user through the solution using the Socratic method.\n\nIMPORTANT RULES:\n1. NEVER give the final answer directly.\n2. Ask leading questions to help the user realize their own mistakes or find the next step.\n3. If the user is stuck, provide a hint or explain a concept related to the problem.\n4. Encourage the user and acknowledge their progress.\n5. Keep your spoken responses concise so the user can focus on writing.\n6. Observe the handwriting canvas closely to understand what the user is writing in real-time."

/-- The greet-immediately behavior clause (`src/App.tsx` line 155). -/
def greetClause : String :=
  "INITIALIZATION: The teacher has provided a specific rubric/problem below. You MUST start the conversation immediately. Greet the student and explicitly ask them to solve the problem described in the rubric."

/-- The remain-silent behavior clause (`src/App.tsx` line 156). -/
def waitClause : String :=
  "INITIALIZATION: No specific rubric is provided. You MUST NOT speak first. Wait for the student to speak, greet you, or start drawing before you say anything."

/-- `hasRubric` (`src/App.tsx` line 152): the JavaScript expression
`rubric && rubric.trim().length > 0` — falsy when `rubric` is the empty
string, else the length test on the trimmed rubric. -/
def hasRubric (rubric : String) : Bool :=
  rubric != "" && decide (0 < (jsTrim rubric).length)

/-- `finalInstruction` (`src/App.tsx` line 158): template literal
concatenating the base instruction, the selected behavior clause, and —
only when `hasRubric` — the rubric section header plus the raw rubric
text. -/
def finalInstruction (rubric : String) : String :=
  BASE_SYSTEM_INSTRUCTION ++ "\n\n"
    ++ (if hasRubric rubric then greetClause else waitClause) ++ "\n\n"
    ++ (if hasRubric rubric then
          "SPECIFIC RUBRIC/INSTRUCTIONS FROM TEACHER:\n" ++ rubric
        else "")

/-- JavaScript property access `result.k` on a parsed JSON value:
`.ok none` models `undefined` (a missing field on an object, or any
field on a primitive or array receiver, which auto-boxes), while a
`null` receiver throws a TypeError — `Except.error` — since
`JSON.parse` can return `null` and `null.k` throws. -/
def jsGetProp : Json → String → Except Unit (Option Json)
  | .null, _ => .error ()
  | .obj fields, k => .ok (fields.lookup k)
  | _, _ => .ok none

/-- JavaScript truthiness of a JSON value. -/
def jsTruthy : Json → Bool
  | .null => false
  | .bool b => b
  | .num q => decide (q ≠ 0)
  | .str s => s != ""
  | .arr _ => true
  | .obj _ => true

/-- JavaScript `v || d` over a possibly-absent JSON value. -/
def jsOr (v : Option Json) (d : Json) : Json :=
  match v with
  | some j => if jsTruthy j then j else d
  | none => d

/-- Outcome of the grading request in `handleGradeAssignment`:
the request threw (network/service failure), the response text failed
`JSON.parse` (which also throws into the same catch), or it parsed to a
JSON body.  An absent/empty `response.text` falls under `parsed`, as
`response.text || '\x7b\x7d'` parses to the empty object. -/
inductive GradeResult where
  | failure
  | parseFailed
  | parsed (body : Json)

/-- `handleGradeAssignment` (`src/App.tsx` lines 303-349): early return
when no canvas; otherwise set `isGrading`, and on a parsed response
evaluate `result.grade` and `result.feedback` — still inside the try,
so a `null` body's property access throws into the catch — then store
the `GradeReport` with `||`-defaulted fields (`'N/A'`,
`'Could not generate feedback.'`) and run `cleanup`; on any caught
failure set the error message; in all cases `finally` resets
`isGrading` to false. -/
def handleGradeAssignment (st : AppState) (canvasPresent : Bool)
    (resp : GradeResult) : AppState :=
  if canvasPresent = false then st
  else
    let st1 := { st with isGrading := true }
    match resp with
    | .failure =>
        { st1 with
          error := some "Grading process failed. Please try again."
          isGrading := false }
    | .parseFailed =>
        { st1 with
          error := some "Grading process failed. Please try again."
          isGrading := false }
    | .parsed body =>
        match jsGetProp body "grade", jsGetProp body "feedback" with
        | .ok g, .ok f =>
            let st2 := { st1 with
              finalGrade := some
                { grade := jsOr g (.str "N/A")
                  feedback := jsOr f (.str "Could not generate feedback.") } }
            let st3 := cleanup st2
            { st3 with isGrading := false }
        | _, _ =>
            { st1 with
              error := some "Grading process failed. Please try again."
              isGrading := false }

/-- Outcome of `navigator.mediaDevices.getUserMedia` during
`startTutoring`: success, or a thrown error with its (possibly empty)
`message`. -/
inductive MicResult where
  | ok
  | failure (msg : String)

/-- The synchronous prologue of `startTutoring` (`src/App.tsx` lines
138-141): status Connecting, clear the error, discard the grade
report, empty the committed history. -/
def startInit (st : AppState) : AppState :=
  { st with
    status := .connecting
    error := none
    finalGrade := none
    transcriptions := [] }

/-- `startTutoring` (`src/App.tsx` lines 136-301) through
`await sessionPromise`, with connection success assumed and the
microphone outcome a parameter.  There is no guard on the current
status or session: the function unconditionally runs the prologue,
opens both audio contexts, and either stores the new session reference
`sid` or — when the microphone fails — executes the catch block
(lines 296-300): set the error message (defaulted when `err.message`
is falsy), set status Error, then run `cleanup` (which resets status to
Idle). -/
def startTutoring (st : AppState) (sid : Nat) (mic : MicResult) : AppState :=
  let st1 := startInit st
  let st2 := { st1 with audioCtxInOpen := true, audioCtxOutOpen := true }
  match mic with
  | .failure msg =>
      cleanup { st2 with
        error := some (if msg = "" then "Failed to initialize session." else msg)
        status := .error }
  | .ok => { st2 with session := some sid }

/-- The `onopen` callback (`src/App.tsx` lines 163-190): status
Connected, capture pipeline wired, sampler timer started. -/
def onOpen (st : AppState) : AppState :=
  { st with status := .connected, timerActive := true }

/-- Consecutive scheduled segments do not overlap: each segment begins
no earlier than the end of the one scheduled before it. -/
def NoOverlap (l : List Segment) : Prop :=
  List.Chain' (fun a b => a.start + a.dur ≤ b.start) l

/-- Scheduling invariant of the playback state: the pending segments
are pairwise non-overlapping in order and all end no later than the
cursor. -/
def SchedInv (st : AppState) : Prop :=
  NoOverlap st.sources ∧ ∀ s ∈ st.sources, s.start + s.dur ≤ st.nextStartTime

/-- Audio chunks arriving at least as fast as playback: starting from
cursor `c`, each chunk's clock reading is at most the cursor it meets,
so the cursor after it is exactly `c + dur`. -/
def FastArrival : ℚ → List (ℚ × ℚ) → Prop
  | _, [] => True
  | c, chunk :: rest => chunk.1 ≤ c ∧ FastArrival (c + chunk.2) rest

lemma length_pos_iff_ne_empty (s : String) : 0 < s.length ↔ s ≠ "" := by
  obtain ⟨l⟩ := s
  rw [show ("" : String) = ⟨[]⟩ from rfl]
  constructor
  · intro h he
    rw [show l = [] from congrArg String.data he] at h
    simp [String.length] at h
  · intro h
    have hl : l ≠ [] := fun he => h (congrArg String.mk he)
    simpa [String.length] using List.length_pos.2 hl

lemma hasRubric_iff (r : String) : hasRubric r = true ↔ jsTrim r ≠ "" := by
  simp only [hasRubric, Bool.and_eq_true, bne_iff_ne, ne_eq, decide_eq_true_eq,
    length_pos_iff_ne_empty]
  constructor
  · rintro ⟨_, h⟩
    exact h
  · intro h
    refine ⟨?_, h⟩
    rintro rfl
    exact h rfl

lemma enqueueChunk_inv (st : AppState) (clockNow dur : ℚ) (hd : 0 ≤ dur)
    (h : SchedInv st) : SchedInv (enqueueChunk clockNow dur st) := by
  obtain ⟨hchain, hle⟩ := h
  have hcur : ∀ s ∈ st.sources,
      s.start + s.dur ≤ max st.nextStartTime clockNow :=
    fun s hs => le_trans (hle s hs) (le_max_left _ _)
  constructor
  · refine List.Chain'.append hchain (List.chain'_singleton _) ?_
    intro x hx y hy
    obtain ⟨hne, rfl⟩ := List.mem_getLast?_eq_getLast hx
    simp only [List.head?_cons, Option.mem_def, Option.some.injEq] at hy
    subst hy
    exact hcur _ (List.getLast_mem hne)
  · intro s hs
    rcases List.mem_append.1 hs with hs | hs
    · exact le_trans (hcur s hs) (le_add_of_nonneg_right hd)
    · simp only [List.mem_singleton] at hs
      subst hs
      simp [enqueueChunk]


lemma enqueueSeq_cons (c : ℚ × ℚ) (cs : List (ℚ × ℚ)) (st : AppState) :
    enqueueSeq (c :: cs) st = enqueueSeq cs (enqueueChunk c.1 c.2 st) := rfl

lemma enqueueSeq_inv (chunks : List (ℚ × ℚ)) :
    ∀ st : AppState, (∀ c ∈ chunks, 0 ≤ c.2) → SchedInv st →
      SchedInv (enqueueSeq chunks st) := by
  induction chunks with
  | nil => exact fun st _ h => h
  | cons c cs ih =>
    intro st hd h
    rw [enqueueSeq_cons]
    exact ih _ (fun x hx => hd x (List.mem_cons_of_mem c hx))
      (enqueueChunk_inv st c.1 c.2 (hd c (List.mem_cons_self c cs)) h)

lemma fastArrival_cursor_sum (chunks : List (ℚ × ℚ)) :
    ∀ st : AppState, FastArrival st.nextStartTime chunks →
      (enqueueSeq chunks st).nextStartTime
        = st.nextStartTime + (chunks.map Prod.snd).sum := by
  induction chunks with
  | nil => intro st _; simp [enqueueSeq]
  | cons c cs ih =>
    intro st h
    obtain ⟨h1, h2⟩ := h
    have hstep : (enqueueChunk c.1 c.2 st).nextStartTime
        = st.nextStartTime + c.2 := by
      simp [enqueueChunk, max_eq_left h1]
    rw [enqueueSeq_cons, ih _ (by rw [hstep]; exact h2), hstep]
    simp only [List.map_cons, List.sum_cons]
    ring

/-- C1.  Processing a turn-complete event commits each trimmed
non-empty buffer as one TranscriptEntry — Student (role `user`) first,
then Mentor (role `model`) — onto the history, commits nothing for a
buffer that trims to empty, and resets both buffers (and their UI
mirrors) to empty.  In particular a whitespace-only Student buffer with
Mentor buffer "ok" yields exactly the one entry with role model and
text "ok", and two empty buffers leave the history unchanged. -/
theorem turnComplete_commits_trimmed_buffers (st : AppState) :
    (turnComplete st).transcriptions
        = st.transcriptions
          ++ ((if jsTrim st.currentInput ≠ "" then
                [{ role := .user, text := jsTrim st.currentInput }] else [])
            ++ (if jsTrim st.currentOutput ≠ "" then
                [{ role := .model, text := jsTrim st.currentOutput }] else []))
    ∧ (turnComplete st).currentInput = ""
    ∧ (turnComplete st).currentOutput = ""
    ∧ (turnComplete st).activeUserText = ""
    ∧ (turnComplete st).activeModelText = ""
    ∧ (turnComplete { st with currentInput := "  ", currentOutput := "ok" }).transcriptions
        = st.transcriptions ++ [{ role := .model, text := "ok" }]
    ∧ (turnComplete { st with currentInput := "", currentOutput := "" }).transcriptions
        = st.transcriptions := by
  have hws : jsTrim "  " = "" := by decide
  have hok : jsTrim "ok" = "ok" := by decide
  have hemp : jsTrim "" = "" := by decide
  refine ⟨?_, rfl, rfl, rfl, rfl, ?_, ?_⟩
  · by_cases h1 : jsTrim st.currentInput = "" <;>
      by_cases h2 : jsTrim st.currentOutput = "" <;>
        simp [turnComplete, h1, h2]
  · simp [turnComplete, hws, hok]
  · simp [turnComplete, hemp]

/-- C9.  Teardown is idempotent and safe from any state: a second
`cleanup` changes nothing, and after `cleanup` the status is Idle, all
four transcription buffers are empty and the pending-segment set is
empty. -/
theorem cleanup_idempotent (st : AppState) :
    cleanup (cleanup st) = cleanup st
    ∧ (cleanup st).status = .idle
    ∧ (cleanup st).currentInput = ""
    ∧ (cleanup st).currentOutput = ""
    ∧ (cleanup st).activeUserText = ""
    ∧ (cleanup st).activeModelText = ""
    ∧ (cleanup st).sources = [] := by
  refine ⟨?_, rfl, rfl, rfl, rfl, rfl, rfl⟩
  simp [cleanup]

/-- C10.  Starting a session resets the cross-session outputs before
connecting: the prologue of `startTutoring` clears the error message,
discards the stored grade report and empties the committed history;
every outcome of `startTutoring` ends with an empty history and no
grade report, and a successful start ends with no error — even though
`cleanup` itself leaves the history in place. -/
theorem startTutoring_resets_outputs :
    (∀ st : AppState, (startInit st).error = none
      ∧ (startInit st).finalGrade = none
      ∧ (startInit st).transcriptions = [])
    ∧ (∀ (st : AppState) (sid : Nat) (mic : MicResult),
        (startTutoring st sid mic).transcriptions = []
        ∧ (startTutoring st sid mic).finalGrade = none)
    ∧ (∀ (st : AppState) (sid : Nat),
        (startTutoring st sid .ok).error = none)
    ∧ (∀ st : AppState, (cleanup st).transcriptions = st.transcriptions) := by
  refine ⟨fun st => ⟨rfl, rfl, rfl⟩, ?_, fun st sid => rfl, fun st => rfl⟩
  intro st sid mic
  cases mic <;> exact ⟨rfl, rfl⟩

/-- C3.  Tool-call dispatch: an event holding one request for the
declared capability `draw_square` and one request for an unknown
capability yields a batch of exactly two results sent as a single
outbound message — the first with payload "ok", the second with the
error payload — each carrying the identifier and name of its
originating request; and in general every request in an event produces
exactly one result, correlated by identifier and name. -/
theorem toolCall_dispatch :
    (∀ (id1 : String) (a1 : List (String × ℚ)) (id2 n2 : String)
        (a2 : List (String × ℚ)), n2 ≠ "draw_square" →
      toolCallOutbound
          [{ id := id1, name := "draw_square", args := a1 },
           { id := id2, name := n2, args := a2 }]
        = [[{ id := id1, name := "draw_square", response := "ok" },
            { id := id2, name := n2, response := "error: tool not found" }]])
    ∧ (∀ functionCalls : List FunctionCall,
        (handleToolCall functionCalls).length = functionCalls.length
        ∧ (handleToolCall functionCalls).map FunctionResponse.id
            = functionCalls.map FunctionCall.id
        ∧ (handleToolCall functionCalls).map FunctionResponse.name
            = functionCalls.map FunctionCall.name) := by
  constructor
  · intro id1 a1 id2 n2 a2 h
    simp [toolCallOutbound, handleToolCall, h]
  · intro functionCalls
    induction functionCalls with
    | nil => exact ⟨rfl, rfl, rfl⟩
    | cons fc rest ih =>
      obtain ⟨ih1, ih2, ih3⟩ := ih
      by_cases h : fc.name = "draw_square" <;>
        refine ⟨?_, ?_, ?_⟩ <;>
          simp [handleToolCall, h] <;>
            simp [handleToolCall] at ih1 ih2 ih3 <;>
              assumption

/-- C3 witness: the dispatch evaluated on a concrete two-request
event. -/
theorem toolCall_dispatch_witness :
    toolCallOutbound
        [{ id := "call-1", name := "draw_square", args := [("x", 100), ("y", 200), ("size", 50)] },
         { id := "call-2", name := "mystery_tool", args := [] }]
      = [[{ id := "call-1", name := "draw_square", response := "ok" },
          { id := "call-2", name := "mystery_tool", response := "error: tool not found" }]] :=
  toolCall_dispatch.1 "call-1" [("x", 100), ("y", 200), ("size", 50)]
    "call-2" "mystery_tool" [] (by decide)

/-- C4.  The system instruction built at session start is the fixed
base persona/ruleset followed by exactly one of the two behavior
clauses, selected by whether the rubric is non-empty after trimming:
non-empty selects the greet-immediately clause followed by the rubric
section with the rubric text; empty-after-trimming selects the
remain-silent clause with no rubric text appended.  The two clauses are
distinct. -/
theorem finalInstruction_selects_clause (rubric : String) :
    (jsTrim rubric ≠ "" →
      finalInstruction rubric
        = BASE_SYSTEM_INSTRUCTION ++ "\n\n" ++ greetClause ++ "\n\n"
          ++ ("SPECIFIC RUBRIC/INSTRUCTIONS FROM TEACHER:\n" ++ rubric))
    ∧ (jsTrim rubric = "" →
      finalInstruction rubric
        = BASE_SYSTEM_INSTRUCTION ++ "\n\n" ++ waitClause ++ "\n\n" ++ "")
    ∧ greetClause ≠ waitClause := by
  refine ⟨?_, ?_, by decide⟩
  · intro h
    have hb : hasRubric rubric = true := (hasRubric_iff rubric).2 h
    simp [finalInstruction, hb]
  · intro h
    have hb : hasRubric rubric = false := by
      cases hb : hasRubric rubric with
      | false => rfl
      | true => exact absurd h ((hasRubric_iff rubric).1 hb)
    simp [finalInstruction, hb]

/-- C4 witness: a whitespace-only rubric selects the remain-silent
clause, a non-empty rubric selects the greet clause with the rubric
text appended. -/
theorem finalInstruction_selects_clause_witness :
    finalInstruction "   "
        = BASE_SYSTEM_INSTRUCTION ++ "\n\n" ++ waitClause ++ "\n\n" ++ ""
    ∧ finalInstruction "2x = 10"
        = BASE_SYSTEM_INSTRUCTION ++ "\n\n" ++ greetClause ++ "\n\n"
          ++ ("SPECIFIC RUBRIC/INSTRUCTIONS FROM TEACHER:\n" ++ "2x = 10") :=
  ⟨(finalInstruction_selects_clause "   ").2.1 (by decide),
   (finalInstruction_selects_clause "2x = 10").1 (by decide)⟩

/-- C6 counterexample: the body text `"null"` parses as JSON (to
JavaScript `null`) and certainly lacks a `feedback` field, yet the
subsequent `result.grade` property access throws a TypeError into the
catch block: the error message is set and no GradeReport at all is
stored — not a report with the placeholder feedback. -/
theorem grading_null_body_cex :
    (handleGradeAssignment initState true (.parsed .null)).finalGrade = none
    ∧ (handleGradeAssignment initState true (.parsed .null)).error
        = some "Grading process failed. Please try again."
    ∧ jsGetProp Json.null "feedback" = .error () :=
  ⟨rfl, rfl, rfl⟩

/-- C6 as amended.  Grading with a response body that parses as a JSON
value on which property access yields `undefined` for `feedback`
(i.e. any body other than `null` that lacks the field) stores a grade
report whose feedback is the placeholder string
"Could not generate feedback." (the operation does not fail); a body
that parses to JSON `null` instead throws on property access and takes
the catch path (see the counterexample); and every outcome of a
grading invocation — parsed body, parse failure or request failure —
ends with the grading-in-progress flag false. -/
theorem grading_defaults_and_flag :
    (∀ (st : AppState) (body : Json),
      jsGetProp body "feedback" = .ok none →
      ((handleGradeAssignment st true (.parsed body)).finalGrade).map
          GradeReport.feedback
        = some (.str "Could not generate feedback."))
    ∧ (∀ (st : AppState) (resp : GradeResult),
        (handleGradeAssignment st true resp).isGrading = false) := by
  constructor
  · intro st body h
    cases body with
    | null => simp [jsGetProp] at h
    | bool b => simp [handleGradeAssignment, jsGetProp, cleanup, jsOr]
    | num q => simp [handleGradeAssignment, jsGetProp, cleanup, jsOr]
    | str s => simp [handleGradeAssignment, jsGetProp, cleanup, jsOr]
    | arr elems => simp [handleGradeAssignment, jsGetProp, cleanup, jsOr]
    | obj fields =>
        simp only [jsGetProp, Except.ok.injEq] at h
        simp [handleGradeAssignment, jsGetProp, cleanup, jsOr, h]
  · intro st resp
    cases resp with
    | failure => rfl
    | parseFailed => rfl
    | parsed body => cases body <;> rfl

/-- C6 witness: a concrete parsed body with a `grade` field but no
`feedback` field. -/
theorem grading_defaults_and_flag_witness :
    ((handleGradeAssignment initState true
        (.parsed (.obj [("grade", .str "A")]))).finalGrade).map
          GradeReport.feedback
      = some (.str "Could not generate feedback.")
    ∧ (handleGradeAssignment initState true .failure).isGrading = false :=
  ⟨grading_defaults_and_flag.1 initState (.obj [("grade", .str "A")]) rfl,
   grading_defaults_and_flag.2 initState .failure⟩

/-- Concrete playback scenario: the cursor stands at 7 with one
pending five-second segment, and the output clock reads 5 at the moment
the interruption event arrives. -/
def exC2 : AppState :=
  { initState with nextStartTime := 7, sources := [{ start := 2, dur := 5 }] }

/-- C2 counterexample: in the `exC2` scenario (output clock at 5), the
interruption branch clears the pending set but writes `0` — not the
clock's current time 5 — into the cursor: the code is
`nextStartTimeRef.current = 0`, it never reads `outCtx.currentTime`. -/
theorem interrupted_cursor_zero_cex :
    (interrupted exC2).sources = []
    ∧ (interrupted exC2).nextStartTime = 0
    ∧ (interrupted exC2).nextStartTime ≠ 5 := by
  refine ⟨rfl, rfl, ?_⟩
  norm_num [interrupted, exC2]

/-- C2 as amended.  Interruption stops every pending segment (they all
move to the stop log), leaves the pending set empty, and resets the
cursor to `0`; because the next enqueue schedules at
`max cursor clockNow`, the first segment after an interruption starts
exactly at the output clock's then-current (non-negative) time, so no
stale audio plays over new audio. -/
theorem interrupted_clears_pending :
    (∀ st : AppState, (interrupted st).sources = []
      ∧ (interrupted st).nextStartTime = 0
      ∧ (interrupted st).stopLog = st.stopLog ++ st.sources)
    ∧ (∀ (st : AppState) (clockNow dur : ℚ), 0 ≤ clockNow →
        (enqueueChunk clockNow dur (interrupted st)).sources
          = [{ start := clockNow, dur := dur }]) := by
  constructor
  · exact fun st => ⟨rfl, rfl, rfl⟩
  · intro st clockNow dur h
    simp [enqueueChunk, interrupted, max_eq_right h]

/-- C2 witness: the amended theorem evaluated on the `exC2` scenario
with the clock at 5. -/
theorem interrupted_clears_pending_witness :
    (interrupted exC2).sources = []
    ∧ (enqueueChunk 5 2 (interrupted exC2)).sources
        = [{ start := 5, dur := 2 }] :=
  ⟨(interrupted_clears_pending.1 exC2).1,
   interrupted_clears_pending.2 exC2 5 2 (by norm_num)⟩

/-- C5 counterexample: chunk one arrives with the clock at 0 (duration
1); chunk two arrives after that playback already finished, with the
clock at 5 (duration 1).  The first start time is 0 and the durations
sum to 2, but the cumulative scheduled end — the final cursor — is
6 ≠ 0 + (1 + 1): the scheduler chains off `max cursor clockNow`, so a
gap of real time between chunks breaks the claimed sum. -/
theorem playback_cumulative_end_cex :
    (enqueueSeq [(0, 1), (5, 1)] initState).sources
        = [{ start := 0, dur := 1 }, { start := 5, dur := 1 }]
    ∧ (enqueueSeq [(0, 1), (5, 1)] initState).nextStartTime = 6
    ∧ (enqueueSeq [(0, 1), (5, 1)] initState).nextStartTime ≠ 0 + (1 + 1) := by
  have h1 : max (0:ℚ) 0 = 0 := by norm_num
  have h2 : max ((0:ℚ) + 1) 5 = 5 := by norm_num [max_def]
  refine ⟨?_, ?_, ?_⟩ <;>
    norm_num [enqueueSeq, enqueueChunk, initState, h1, h2]

/-- C5 as amended.  Each enqueued segment is scheduled to start at
`max cursor clockNow` and the cursor advances by exactly that
segment's duration; consequently consecutive segments never overlap
(for non-negative durations, starting from an empty pending set); the
cumulative scheduled end equals the first segment's start time plus
the sum of all durations provided the later chunks arrive no later
than the cursor they meet (`FastArrival`) — without that proviso a gap
can appear (see the counterexample); and a segment is removed from the
pending set when its playback ends. -/
theorem playback_scheduling :
    (∀ (st : AppState) (clockNow dur : ℚ),
      (enqueueChunk clockNow dur st).sources
          = st.sources
            ++ [{ start := max st.nextStartTime clockNow, dur := dur }]
      ∧ (enqueueChunk clockNow dur st).nextStartTime
          = max st.nextStartTime clockNow + dur)
    ∧ (∀ (st : AppState) (chunks : List (ℚ × ℚ)), st.sources = [] →
        (∀ c ∈ chunks, 0 ≤ c.2) →
        NoOverlap (enqueueSeq chunks st).sources)
    ∧ (∀ (st : AppState) (clock1 d1 : ℚ) (rest : List (ℚ × ℚ)),
        FastArrival (max st.nextStartTime clock1 + d1) rest →
        (enqueueSeq ((clock1, d1) :: rest) st).nextStartTime
          = max st.nextStartTime clock1 + (d1 + (rest.map Prod.snd).sum))
    ∧ (∀ (st : AppState) (seg : Segment),
        (segmentEnded seg st).sources = st.sources.erase seg) := by
  refine ⟨fun st c d => ⟨rfl, rfl⟩, ?_, ?_, fun st seg => rfl⟩
  · intro st chunks hs hd
    have hinv : SchedInv st := by
      constructor
      · show NoOverlap st.sources
        rw [hs]
        exact List.chain'_nil
      · intro s hsmem
        rw [hs] at hsmem
        exact absurd hsmem (List.not_mem_nil s)
    exact (enqueueSeq_inv chunks st hd hinv).1
  · intro st c1 d1 rest h
    rw [enqueueSeq_cons]
    have hcur : (enqueueChunk c1 d1 st).nextStartTime
        = max st.nextStartTime c1 + d1 := rfl
    rw [fastArrival_cursor_sum rest _ (by rw [hcur]; exact h), hcur]
    ring

/-- C5 witness: two back-to-back chunks (clock at 0 both times,
durations 1 and 2) scheduled from the initial state. -/
theorem playback_scheduling_witness :
    NoOverlap (enqueueSeq [(0, 1), (0, 2)] initState).sources
    ∧ (enqueueSeq [(0, 1), (0, 2)] initState).nextStartTime
        = max initState.nextStartTime 0
          + (1 + (([((0 : ℚ), (2 : ℚ))]).map Prod.snd).sum) :=
  ⟨playback_scheduling.2.1 initState [(0, 1), (0, 2)] rfl (by norm_num),
   playback_scheduling.2.2.1 initState 0 1 [(0, 2)]
     ⟨by norm_num [initState], trivial⟩⟩

/-- C7 counterexample: when microphone acquisition fails, the catch
block does run `setStatus(ERROR)`, but it then calls `cleanup()`,
whose `setStatus(IDLE)` wins: after the start operation completes the
status is Idle, not Error. -/
theorem startTutoring_failure_status_cex :
    (startTutoring initState 0 (.failure "Permission denied")).status = .idle
    ∧ (startTutoring initState 0 (.failure "Permission denied")).status
        ≠ .error :=
  ⟨rfl, by decide⟩

/-- C7 as amended.  If microphone acquisition fails during start, the
user-visible error message is set (defaulted when the thrown message is
empty) and full teardown has run — timer cancelled, audio contexts
closed, pending audio cleared, session reference dropped, buffers
cleared — which leaves the final status Idle (the transient Error
status written by the catch block is immediately overwritten by
teardown's reset to Idle). -/
theorem startTutoring_failure_teardown (st : AppState) (sid : Nat) (msg : String) :
    (startTutoring st sid (.failure msg)).error
        = some (if msg = "" then "Failed to initialize session." else msg)
    ∧ (startTutoring st sid (.failure msg)).status = .idle
    ∧ (startTutoring st sid (.failure msg)).session = none
    ∧ (startTutoring st sid (.failure msg)).timerActive = false
    ∧ (startTutoring st sid (.failure msg)).audioCtxInOpen = false
    ∧ (startTutoring st sid (.failure msg)).audioCtxOutOpen = false
    ∧ (startTutoring st sid (.failure msg)).sources = []
    ∧ (startTutoring st sid (.failure msg)).currentInput = ""
    ∧ (startTutoring st sid (.failure msg)).currentOutput = ""
    ∧ (startTutoring st sid (.failure msg)).activeUserText = ""
    ∧ (startTutoring st sid (.failure msg)).activeModelText = "" :=
  ⟨rfl, rfl, rfl, rfl, rfl, rfl, rfl, rfl, rfl, rfl, rfl⟩

/-- C8: the code evaluated at the failing input.  From a state with a
live session (status Connected, session reference 1), invoking
`startTutoring` does not refuse: it proceeds to Connecting and
overwrites the session reference with the new session 2 — the function
contains no guard on the current status or session. -/
theorem startTutoring_no_guard :
    (startTutoring { initState with status := .connected, session := some 1 }
        2 .ok).session = some 2
    ∧ (startTutoring { initState with status := .connected, session := some 1 }
        2 .ok).status = .connecting
    ∧ ({ initState with status := .connected, session := some 1 }
        : AppState).session = some 1 :=
  ⟨rfl, rfl, rfl⟩

end MathMentor
